import Mathlib

/-!
Shallow embedding of `src/lib/Toc.svelte` (svelte-toc): a table-of-contents
component. We model the component's pure logic and its event-driven state
updates: heading discovery (`requery_headings`), active-heading tracking
(`set_active_heading`), the page-body resolution performed on mount, the
entry activation handler (`li_click_key_handler`), the window-event wiring
(`scroll` / `scrollend`), the `desktop` reactive derivation and the nav
render guard of the template.

DOM elements are modelled by small structures carrying exactly the data the
component reads from them (`getBoundingClientRect().top`, `id`, `offsetTop`,
`offsetHeight`). JavaScript truthiness tests on strings and numbers are
modelled as `≠ ""` and `≠ 0`; `undefined` results of out-of-range array
indexing are modelled with `Option` via `List.get?`.
-/

namespace SvelteToc

/-- A heading element, as the component observes it: its
`getBoundingClientRect().top` position and its `id` attribute. -/
structure Heading where
  top : Int
  id : String
deriving Repr, DecidableEq

/-- A ToC list item (`<li>`), as the component observes it: its `offsetTop`,
used by `scroll_to_active_toc_item`. -/
structure TocLi where
  offsetTop : Int
deriving Repr, DecidableEq

/-- The nav container element bound by `bind:this={nav}`: the component reads
its `offsetHeight`. -/
structure NavEl where
  offsetHeight : Int
deriving Repr, DecidableEq

/-- The component state touched by the heading registry and the active
heading tracker: `headings`, `tocItems` and the active selection
(`activeHeading`, `activeTocLi`), plus the `hide` and `open` flags. -/
structure TocState where
  headings : List Heading
  tocItems : List TocLi
  activeHeading : Option Heading
  activeTocLi : Option TocLi
  hide : Bool
  «open» : Bool
deriving Repr, DecidableEq

/-- The loop condition `top < activeHeadingScrollOffset` of
`set_active_heading`, at index `n` of the headings array. Out-of-range
access (never reached by the loop, which starts at `headings.length`) is
`false`, matching `undefined < offset` in JavaScript. -/
def top_below_offset (headings : List Heading) (offset : Int) (n : Nat) : Bool :=
  (headings.get? n).elim false (fun h => decide (h.top < offset))

/-- The `while (idx--)` loop of `set_active_heading`: `idx` is the value of
the counter before the test, so the body runs for indices
`idx - 1, idx - 2, ..., 0` until the condition
`top < activeHeadingScrollOffset || idx === 0` fires, returning the index at
which the active selection is assigned; `none` means the loop fell through
without assigning (only possible when the list is empty). -/
def set_active_idx (headings : List Heading) (offset : Int) : Nat → Option Nat
  | 0 => none
  | n + 1 =>
    if top_below_offset headings offset n || n == 0 then some n
    else set_active_idx headings offset n

/-- `set_active_heading`: scan headings from last to first; at the first
index where the heading's top is above the scroll-offset threshold (or at
index 0), assign `activeHeading = headings[idx]` and
`activeTocLi = tocItems[idx]` and return. -/
def set_active_heading (offset : Int) (s : TocState) : TocState :=
  match set_active_idx s.headings offset s.headings.length with
  | some idx =>
    { s with activeHeading := s.headings.get? idx, activeTocLi := s.tocItems.get? idx }
  | none => s

/-- `requery_headings` (browser path; the `typeof document === undefined`
early return only guards the non-browser SSR context): set `headings` to the
current query result, recompute the active heading, then apply the
empty-collection policy. The returned `Bool` records whether the
`console.warn` diagnostic was emitted. -/
def requery_headings (queried : List Heading) (warnOnEmpty autoHide : Bool)
    (offset : Int) (s : TocState) : TocState × Bool :=
  let s1 := set_active_heading offset { s with headings := queried }
  if s1.headings.length == 0 then
    let warned := warnOnEmpty
    (if autoHide then { s1 with hide := true } else s1, warned)
  else if s1.hide && autoHide then
    ({ s1 with hide := false }, false)
  else
    (s1, false)

/-- The `pageBody` prop: either a selector string or a direct element
reference (elements are identified by a `Nat` tag). -/
inductive PageBody where
  | selector (sel : String)
  | element (el : Nat)
deriving Repr, DecidableEq

/-- The `onMount` resolution of `pageBody`: when it is a string, replace it
with `document.querySelector(pageBody)`; when that lookup yields no element,
throw `Error`. The thrown message interpolates the already-reassigned
(null) `pageBody`, hence the literal `"null"`. A direct element reference is
used as is. `querySelector` abstracts the document lookup. -/
def resolve_page_body (querySelector : String → Option Nat) :
    PageBody → Except String Nat
  | .selector sel =>
    match querySelector sel with
    | some el => .ok el
    | none => .error ("Could not find page body element: " ++ "null")
  | .element el => .ok el

/-- An event delivered to a ToC `<li>`: a mouse click, or a key-up carrying
the event's `key` string. -/
inductive UiEvent where
  | mouse
  | keyboard (key : String)
deriving Repr, DecidableEq

/-- The guard `event instanceof KeyboardEvent && ![`Enter`, ` `].includes(event.key)`
of `li_click_key_handler`. -/
def keyboard_nonqualifying : UiEvent → Bool
  | .keyboard key => !(["Enter", " "].contains key)
  | .mouse => false

/-- The document-level state mutated by `li_click_key_handler`: the panel's
`open` flag, the last `scrollIntoView` target of the host document (with the
behavior used), the location fragment (`history.replaceState` URL), the set
of headings currently carrying the `toc-clicked` class, and the pending
`setTimeout` class removals (heading, delay). -/
structure DocState where
  «open» : Bool
  scrolledTo : Option (Heading × String)
  fragment : Option String
  clicked : List Heading
  pendingUnflash : List (Heading × Nat)
deriving Repr, DecidableEq

/-- `li_click_key_handler(node)` applied to an event: non-qualifying key
presses return immediately; otherwise close the panel, scroll the heading
into view, update the location fragment when the heading id is truthy
(non-empty), and when `flashClickedHeadingsFor` is truthy (non-zero) add the
`toc-clicked` class and schedule its removal. -/
def li_click_key_handler (scrollBehavior : String) (getHeadingIds : Heading → String)
    (flashClickedHeadingsFor : Nat) (node : Heading) (event : UiEvent)
    (s : DocState) : DocState :=
  if keyboard_nonqualifying event then s
  else
    let s1 := { s with «open» := false, scrolledTo := some (node, scrollBehavior) }
    let id := getHeadingIds node
    let s2 := if id != "" then { s1 with fragment := some ("#" ++ id) } else s1
    if flashClickedHeadingsFor != 0 then
      { s2 with
        clicked := node :: s2.clicked
        pendingUnflash := (node, flashClickedHeadingsFor) :: s2.pendingUnflash }
    else s2

/-- A scroll command issued against the panel's own list container
(`nav.scrollTo({ top, behavior })`). -/
structure NavScroll where
  top : Int
  behavior : String
deriving Repr, DecidableEq

/-- `scroll_to_active_toc_item(behavior)`: when `keepActiveTocItemInView` is
set and both `activeTocLi` and `nav` are bound, issue one scroll of the nav
container to center the active item (`activeTocLi.offsetTop -
nav.offsetHeight / 2`); otherwise issue nothing. -/
def scroll_to_active_toc_item (behavior : String) (keepActiveTocItemInView : Bool)
    (nav : Option NavEl) (s : TocState) : List NavScroll :=
  match s.activeTocLi, nav with
  | some li, some n =>
    if keepActiveTocItemInView then [{ top := li.offsetTop - n.offsetHeight / 2, behavior }]
    else []
  | _, _ => []

/-- A `svelte:window` event the component listens to. -/
inductive WinEvent where
  | scroll
  | scrollend
deriving Repr, DecidableEq

/-- The `<svelte:window>` wiring: `on:scroll={set_active_heading}` (a state
update issuing no nav scroll) and `on:scrollend={() =>
scroll_to_active_toc_item()}` (deferring the nav scroll to the completion
signal, with the default `smooth` behavior). Returns the new state and the
nav scrolls issued while handling the event. -/
def handle_window_event (offset : Int) (keepActiveTocItemInView : Bool)
    (nav : Option NavEl) (e : WinEvent) (s : TocState) : TocState × List NavScroll :=
  match e with
  | .scroll => (set_active_heading offset s, [])
  | .scrollend => (s, scroll_to_active_toc_item "smooth" keepActiveTocItemInView nav s)

/-- The reactive statement `$: desktop = window_width > breakpoint`,
re-evaluated on every `window_width` change. -/
def desktop (window_width breakpoint : Int) : Bool :=
  window_width > breakpoint

/-- The template guard of the nav content:
`{#if open || (desktop && headings.length >= minItems)}`. -/
def nav_rendered (s : TocState) (desktop_flag : Bool) (minItems : Nat) : Bool :=
  s.«open» || (desktop_flag && s.headings.length ≥ minItems)

/-- The template guard of the mobile open button:
`{#if !open && !desktop && headings.length >= minItems}`. -/
def open_button_rendered (s : TocState) (desktop_flag : Bool) (minItems : Nat) : Bool :=
  !s.«open» && !desktop_flag && s.headings.length ≥ minItems

/-! ### Helper lemmas -/

theorem set_active_heading_headings (offset : Int) (s : TocState) :
    (set_active_heading offset s).headings = s.headings := by
  unfold set_active_heading
  cases set_active_idx s.headings offset s.headings.length <;> rfl

theorem set_active_heading_hide (offset : Int) (s : TocState) :
    (set_active_heading offset s).hide = s.hide := by
  unfold set_active_heading
  cases set_active_idx s.headings offset s.headings.length <;> rfl

theorem set_active_heading_of_empty (offset : Int) (s : TocState)
    (h : s.headings = []) : set_active_heading offset s = s := by
  unfold set_active_heading
  rw [h]
  rfl

/-- Characterization of the reverse scan: starting the `while (idx--)` loop
at any positive counter `n`, exactly one index is assigned; it satisfies the
threshold test or is index 0, and every index strictly between it and the
start of the scan fails the threshold test. -/
theorem set_active_idx_spec (hs : List Heading) (off : Int) :
    ∀ n, 0 < n → ∃ i, set_active_idx hs off n = some i ∧ i < n ∧
      (top_below_offset hs off i = true ∨ i = 0) ∧
      ∀ j, i < j → j < n → top_below_offset hs off j = false := by
  intro n
  induction n with
  | zero => intro h; exact absurd h (by omega)
  | succ m ih =>
    intro _
    rcases Nat.eq_zero_or_pos m with hm | hm
    · subst hm
      refine ⟨0, ?_, by omega, Or.inr rfl, ?_⟩
      · simp [set_active_idx]
      · intro j hj hj1; omega
    · by_cases hb : top_below_offset hs off m = true
      · refine ⟨m, ?_, by omega, Or.inl hb, ?_⟩
        · simp [set_active_idx, hb]
        · intro j hj hj1; omega
      · obtain ⟨i, hrec, hi, hsel, hall⟩ := ih hm
        have hb' : top_below_offset hs off m = false := by
          simpa using hb
        have hm' : (m == 0) = false := by
          simp; omega
        refine ⟨i, ?_, by omega, hsel, ?_⟩
        · simp [set_active_idx, hb', hm', hrec]
        · intro j hj hjm1
          rcases Nat.lt_succ_iff_lt_or_eq.mp hjm1 with hlt | heq
          · exact hall j hj hlt
          · subst heq; exact hb'

/-! ### Claim theorems -/

/-- C1: for every non-empty heading collection and any scroll offset,
`set_active_heading` selects exactly one entry: the index `i` it assigns is
the first in the reverse (last-to-first) scan whose top is below the
threshold — i.e. no later index passes the test — or index 0 when no
heading qualifies. -/
theorem set_active_heading_selects_reverse_first (offset : Int) (s : TocState)
    (h : s.headings ≠ []) :
    ∃ i, i < s.headings.length ∧
      set_active_idx s.headings offset s.headings.length = some i ∧
      (set_active_heading offset s).activeHeading = s.headings.get? i ∧
      ((set_active_heading offset s).activeHeading).isSome = true ∧
      (top_below_offset s.headings offset i = true ∨ i = 0) ∧
      (∀ j, i < j → j < s.headings.length → top_below_offset s.headings offset j = false) ∧
      ((∀ j, j < s.headings.length → top_below_offset s.headings offset j = false) →
        i = 0) := by
  obtain ⟨i, hrec, hi, hsel, hall⟩ :=
    set_active_idx_spec s.headings offset s.headings.length (List.length_pos.mpr h)
  refine ⟨i, hi, hrec, ?_, ?_, hsel, hall, ?_⟩
  · simp [set_active_heading, hrec]
  · simp only [set_active_heading, hrec]
    simp [List.getElem?_eq_getElem hi]
  · intro hnone
    rcases hsel with hbelow | h0
    · exact absurd hbelow (by simp [hnone i hi])
    · exact h0

/-- C5: `set_active_heading` is idempotent — applying it twice with the same
scroll threshold and unchanged heading positions yields the same active
heading and active list item as applying it once. -/
theorem set_active_heading_idempotent (offset : Int) (s : TocState) :
    set_active_heading offset (set_active_heading offset s) =
      set_active_heading offset s := by
  cases h : set_active_idx s.headings offset s.headings.length with
  | none => simp [set_active_heading, h]
  | some idx => simp [set_active_heading, h]

/-- C9: when the heading collection is empty, `set_active_heading` performs
no update at all — the previously stored `activeHeading` and `activeTocLi`
retain their old values rather than being cleared. -/
theorem set_active_heading_empty_keeps_stale (offset : Int) (s : TocState)
    (h : s.headings = []) :
    set_active_heading offset s = s ∧
    (set_active_heading offset s).activeHeading = s.activeHeading ∧
    (set_active_heading offset s).activeTocLi = s.activeTocLi := by
  have heq := set_active_heading_of_empty offset s h
  exact ⟨heq, by rw [heq], by rw [heq]⟩

/-- A concrete two-heading state: the first heading above the threshold, the
second below the viewport. -/
def exTwoHeadings : TocState :=
  { headings := [{ top := 50, id := "a" }, { top := 200, id := "b" }],
    tocItems := [{ offsetTop := 0 }, { offsetTop := 30 }],
    activeHeading := none, activeTocLi := none, hide := false, «open» := false }

/-- Witness for C1 at a concrete two-heading state with threshold 100. -/
theorem set_active_heading_selects_reverse_first_witness :
    exTwoHeadings.headings ≠ [] ∧
    ∃ i, i < exTwoHeadings.headings.length ∧
      set_active_idx exTwoHeadings.headings 100 exTwoHeadings.headings.length = some i ∧
      (set_active_heading 100 exTwoHeadings).activeHeading = exTwoHeadings.headings.get? i ∧
      ((set_active_heading 100 exTwoHeadings).activeHeading).isSome = true ∧
      (top_below_offset exTwoHeadings.headings 100 i = true ∨ i = 0) ∧
      (∀ j, i < j → j < exTwoHeadings.headings.length →
        top_below_offset exTwoHeadings.headings 100 j = false) ∧
      ((∀ j, j < exTwoHeadings.headings.length →
        top_below_offset exTwoHeadings.headings 100 j = false) → i = 0) :=
  ⟨by decide, set_active_heading_selects_reverse_first 100 exTwoHeadings (by decide)⟩

/-- A state with an empty heading collection but a stale active selection
left over from a prior non-empty collection. -/
def exStaleState : TocState :=
  { headings := [], tocItems := [],
    activeHeading := some { top := 5, id := "stale" },
    activeTocLi := some { offsetTop := 7 }, hide := false, «open» := false }

/-- Witness for C9: on the empty collection the stale selection persists. -/
theorem set_active_heading_empty_keeps_stale_witness :
    exStaleState.headings = [] ∧
    (set_active_heading 100 exStaleState = exStaleState ∧
     (set_active_heading 100 exStaleState).activeHeading = exStaleState.activeHeading ∧
     (set_active_heading 100 exStaleState).activeTocLi = exStaleState.activeTocLi) :=
  ⟨rfl, set_active_heading_empty_keeps_stale 100 exStaleState rfl⟩

/-- A state with zero headings but the open flag set. -/
def exOpenEmpty : TocState :=
  { headings := [], tocItems := [], activeHeading := none, activeTocLi := none,
    hide := false, «open» := true }

/-- C2 counterexample: with zero headings (strictly below minItems = 1) but
the open flag set, the nav guard `open || (desktop && headings.length >=
minItems)` still renders the nav content — the claim's "regardless of the
value of the open flag" fails on the code. -/
theorem nav_rendered_despite_below_min_items :
    exOpenEmpty.headings.length < 1 ∧ nav_rendered exOpenEmpty false 1 = true :=
  ⟨by decide, by decide⟩

/-- C2 (amended): when the open flag is false, a heading count strictly
below minItems means the nav content is not rendered, whatever the desktop
flag. -/
theorem nav_not_rendered_below_min_items_when_closed (s : TocState) (d : Bool)
    (minItems : Nat) (hopen : s.«open» = false)
    (hcount : s.headings.length < minItems) :
    nav_rendered s d minItems = false := by
  have hnot : ¬ (minItems ≤ s.headings.length) := by omega
  simp [nav_rendered, hopen, hnot]

/-- A closed state with zero headings and the open flag unset. -/
def exClosedEmpty : TocState :=
  { headings := [], tocItems := [], activeHeading := none, activeTocLi := none,
    hide := false, «open» := false }

/-- Witness for the amended C2. -/
theorem nav_not_rendered_below_min_items_when_closed_witness :
    exClosedEmpty.«open» = false ∧ exClosedEmpty.headings.length < 1 ∧
    nav_rendered exClosedEmpty true 1 = false :=
  ⟨rfl, by decide,
   nav_not_rendered_below_min_items_when_closed exClosedEmpty true 1 rfl (by decide)⟩

/-- C3: after `requery_headings`, an empty resulting collection emits the
diagnostic exactly when warnOnEmpty is set and forces `hide := true` when
autoHide is set; a non-empty collection clears a previously set `hide` when
autoHide is set. -/
theorem requery_headings_policy (queried : List Heading)
    (warnOnEmpty autoHide : Bool) (offset : Int) (s : TocState) :
    (queried = [] →
      (requery_headings queried warnOnEmpty autoHide offset s).2 = warnOnEmpty ∧
      (autoHide = true →
        (requery_headings queried warnOnEmpty autoHide offset s).1.hide = true)) ∧
    (queried ≠ [] → s.hide = true → autoHide = true →
      (requery_headings queried warnOnEmpty autoHide offset s).1.hide = false) := by
  constructor
  · intro hq
    subst hq
    have h1 : set_active_heading offset { s with headings := ([] : List Heading) } =
        { s with headings := [] } := set_active_heading_of_empty offset _ rfl
    constructor
    · unfold requery_headings
      rw [h1]
      cases autoHide <;> simp
    · intro ha
      subst ha
      unfold requery_headings
      rw [h1]
      simp
  · intro hq hhide ha
    subst ha
    have hlen : (set_active_heading offset { s with headings := queried }).headings =
        queried := set_active_heading_headings offset _
    have hhide' : (set_active_heading offset { s with headings := queried }).hide =
        true := by
      rw [set_active_heading_hide]
      exact hhide
    unfold requery_headings
    simp [hlen, hhide', hq]

/-- A hidden state whose prior collection was empty, before headings return. -/
def exHiddenState : TocState :=
  { headings := [], tocItems := [], activeHeading := none, activeTocLi := none,
    hide := true, «open» := false }

/-- Witness for C3: empty query warns and hides; a later non-empty query on
the hidden state clears `hide`. -/
theorem requery_headings_policy_witness :
    (requery_headings [] true true 100 exClosedEmpty).2 = true ∧
    (requery_headings [] true true 100 exClosedEmpty).1.hide = true ∧
    (requery_headings [{ top := 1, id := "a" }] true true 100 exHiddenState).1.hide
      = false :=
  ⟨((requery_headings_policy [] true true 100 exClosedEmpty).1 rfl).1,
   ((requery_headings_policy [] true true 100 exClosedEmpty).1 rfl).2 rfl,
   (requery_headings_policy [{ top := 1, id := "a" }] true true 100
      exHiddenState).2 (by decide) rfl rfl⟩

/-- C4: when pageBody is a selector string and the document lookup finds no
element, the mount logic throws an Error to the caller rather than
suppressing the failure. -/
theorem resolve_page_body_missing_throws (querySelector : String → Option Nat)
    (sel : String) (h : querySelector sel = none) :
    ∃ msg, resolve_page_body querySelector (PageBody.selector sel) =
      Except.error msg := by
  simp [resolve_page_body, h]

/-- Witness for C4 with a lookup that finds nothing. -/
theorem resolve_page_body_missing_throws_witness :
    (fun _ : String => (none : Option Nat)) "main" = none ∧
    ∃ msg, resolve_page_body (fun _ => none) (PageBody.selector "main") =
      Except.error msg :=
  ⟨rfl, resolve_page_body_missing_throws (fun _ => none) "main" rfl⟩

/-- C6: handling a document scroll event issues no scroll of the panel's
list container — the nav scroll is deferred: any event whose handling does
issue a nav scroll is the scrollend completion signal. -/
theorem nav_scroll_only_on_scrollend (offset : Int) (keep : Bool)
    (nav : Option NavEl) (e : WinEvent) (s : TocState) :
    (handle_window_event offset keep nav WinEvent.scroll s).2 = [] ∧
    ((handle_window_event offset keep nav e s).2 ≠ [] → e = WinEvent.scrollend) := by
  refine ⟨rfl, ?_⟩
  intro hne
  cases e with
  | scroll => exact absurd rfl hne
  | scrollend => rfl

/-- A state with an active ToC item, so that scrollend does issue a scroll. -/
def exActiveLiState : TocState :=
  { headings := [], tocItems := [{ offsetTop := 40 }], activeHeading := none,
    activeTocLi := some { offsetTop := 40 }, hide := false, «open» := false }

/-- Witness for C6: a scroll event issues nothing, and the implication is
discharged at a scrollend event that does issue a nav scroll. -/
theorem nav_scroll_only_on_scrollend_witness :
    (handle_window_event 100 true (some { offsetHeight := 10 }) WinEvent.scroll
      exActiveLiState).2 = [] ∧
    WinEvent.scrollend = WinEvent.scrollend :=
  ⟨(nav_scroll_only_on_scrollend 100 true (some { offsetHeight := 10 })
      WinEvent.scrollend exActiveLiState).1,
   (nav_scroll_only_on_scrollend 100 true (some { offsetHeight := 10 })
      WinEvent.scrollend exActiveLiState).2 (by decide)⟩

/-- C7: a keyboard event whose key is neither Enter nor Space makes
`li_click_key_handler` return with no effect — the open flag, the document
scroll target, the location fragment and the class lists are all
unchanged. -/
theorem li_click_key_handler_other_key_noop (scrollBehavior : String)
    (getHeadingIds : Heading → String) (flashClickedHeadingsFor : Nat)
    (node : Heading) (key : String) (s : DocState)
    (h1 : key ≠ "Enter") (h2 : key ≠ " ") :
    li_click_key_handler scrollBehavior getHeadingIds flashClickedHeadingsFor
      node (UiEvent.keyboard key) s = s := by
  have hq : keyboard_nonqualifying (UiEvent.keyboard key) = true := by
    simp [keyboard_nonqualifying]
    exact ⟨h1, h2⟩
  simp [li_click_key_handler, hq]

/-- A handler state with the panel open and a previous fragment set. -/
def exDocState : DocState :=
  { «open» := true, scrolledTo := none, fragment := some "#old", clicked := [],
    pendingUnflash := [] }

/-- Witness for C7 with the Tab key. -/
theorem li_click_key_handler_other_key_noop_witness :
    ("Tab" : String) ≠ "Enter" ∧ ("Tab" : String) ≠ " " ∧
    li_click_key_handler "smooth" Heading.id 1500 { top := 3, id := "h" }
      (UiEvent.keyboard "Tab") exDocState = exDocState :=
  ⟨by decide, by decide,
   li_click_key_handler_other_key_noop "smooth" Heading.id 1500
     { top := 3, id := "h" } "Tab" exDocState (by decide) (by decide)⟩

/-- C8: `desktop` is a pure function of the viewport width and the
breakpoint, true exactly when the width is strictly greater than the
breakpoint; in particular width 1400 with breakpoint 1000 yields true. The
reactive statement re-evaluates this function on every width change. -/
theorem desktop_iff_gt :
    (∀ w b : Int, desktop w b = true ↔ b < w) ∧ desktop 1400 1000 = true := by
  refine ⟨fun w b => ?_, by decide⟩
  simp [desktop]

/-- C10: activating a heading whose computed id is empty still closes the
panel and scrolls the document to the heading with the configured behavior,
but leaves the location fragment unchanged (`history.replaceState` is not
reached). -/
theorem li_click_key_handler_empty_id (scrollBehavior : String)
    (getHeadingIds : Heading → String) (flashClickedHeadingsFor : Nat)
    (node : Heading) (event : UiEvent) (s : DocState)
    (hq : keyboard_nonqualifying event = false)
    (hid : getHeadingIds node = "") :
    (li_click_key_handler scrollBehavior getHeadingIds flashClickedHeadingsFor
      node event s).«open» = false ∧
    (li_click_key_handler scrollBehavior getHeadingIds flashClickedHeadingsFor
      node event s).scrolledTo = some (node, scrollBehavior) ∧
    (li_click_key_handler scrollBehavior getHeadingIds flashClickedHeadingsFor
      node event s).fragment = s.fragment := by
  by_cases hf : flashClickedHeadingsFor = 0 <;>
    simp [li_click_key_handler, hq, hid, hf]

/-- A handler state with a previous fragment, for the empty-id witness. -/
def exDocStateFrag : DocState :=
  { «open» := true, scrolledTo := none, fragment := some "#prev", clicked := [],
    pendingUnflash := [] }

/-- Witness for C10: a mouse activation with an id extractor returning the
empty string. -/
theorem li_click_key_handler_empty_id_witness :
    keyboard_nonqualifying UiEvent.mouse = false ∧
    (fun _ : Heading => "") { top := 3, id := "" } = "" ∧
    ((li_click_key_handler "smooth" (fun _ => "") 1500 { top := 3, id := "" }
        UiEvent.mouse exDocStateFrag).«open» = false ∧
     (li_click_key_handler "smooth" (fun _ => "") 1500 { top := 3, id := "" }
        UiEvent.mouse exDocStateFrag).scrolledTo =
       some ({ top := 3, id := "" }, "smooth") ∧
     (li_click_key_handler "smooth" (fun _ => "") 1500 { top := 3, id := "" }
        UiEvent.mouse exDocStateFrag).fragment = exDocStateFrag.fragment) :=
  ⟨rfl, rfl,
   li_click_key_handler_empty_id "smooth" (fun _ => "") 1500
     { top := 3, id := "" } UiEvent.mouse exDocStateFrag rfl rfl⟩

end SvelteToc
